import Mathlib

/-!
# Verification of `update_comfyui.py`'s repository-sync procedure

This file gives a shallow embedding of `git_pull_with_resolve`
(src/update_comfyui.py, lines 49-103) and of the final reporting of
`main` (lines 159-164), and proves the specified properties about them.

The git commands themselves are external processes invoked through
`run_git_command` (lines 44-47); the script inspects only their exit
codes (and, for `git stash list`, whether stdout is non-empty).  We
model the external VCS as an abstract repository state `GitState`
together with an outcome oracle `GitEnv` that fixes the exit code of
each fallible command; the state effect of each command follows the
abstract operation descriptions of the specification (fetch, reset,
stash, rebase).  The syncer itself is translated line by line from the
Python source, and additionally records the ordered trace of git
commands it runs and the narration lines it would print in verbose
mode, so that "performs no VCS operation" and "produces no narration"
become provable statements.
-/

/-- ANSI color code, src/update_comfyui.py line 10. -/
def GREEN : String := "\x1b[0;32m"

/-- ANSI color code, src/update_comfyui.py line 11. -/
def YELLOW : String := "\x1b[0;33m"

/-- ANSI color code, src/update_comfyui.py line 12. -/
def RED : String := "\x1b[0;31m"

/-- ANSI color code, src/update_comfyui.py line 13. -/
def DEFAULT : String := "\x1b[0m"

/-- Abstract state of one checkout: presence of the `.git` marker, the
number of entries in the stash list, whether `git diff --quiet HEAD`
reports a difference, whether a rebase is in progress, and abstract
commit identifiers for the tip of the current local branch, its
upstream tracking ref, and the actual remote tip (what a fetch would
bring in). -/
structure GitState where
  hasGit : Bool
  stashes : Nat
  dirty : Bool
  rebaseInProgress : Bool
  headCommit : Nat
  upstreamTip : Nat
  remoteTip : Nat
deriving Repr, DecidableEq

/-- Outcome oracle for the external git commands: the exit code each
fallible command would return in this run.  The three `Ok` booleans
are the commands whose exit code the script inspects (lines 64-65,
81-82, 94-96); the `Code` naturals are the exit codes of the commands
the script runs without looking at the result (lines 74, 78, 89, 90,
98). -/
structure GitEnv where
  stashApplyOk : Bool
  pullOk : Bool
  rebaseTheirsOk : Bool
  resetHeadCode : Nat
  stashCode : Nat
  fetchCode : Nat
  resetUpstreamCode : Nat
  abortCode : Nat
deriving Repr, DecidableEq

/-- The git commands `git_pull_with_resolve` can issue, in source
order of first appearance (lines 60, 64, 69, 74, 78, 81, 89, 90, 94,
98). -/
inductive GitCmd where
  | stashList
  | stashApply
  | diffQuietHead
  | resetHardHead
  | stashPush
  | pullRebase
  | fetchAll
  | resetHardUpstream
  | rebaseTheirs
  | rebaseAbort
deriving Repr, DecidableEq

/-- Modelled from the spec: abstract semantics of the external VCS
operations of spec section 6 that `run_git_command` shells out to (the
commands are external programs, not code of this repository).  Each
command returns an exit code and the successor repository state:
listing stashes changes nothing; a successful stash apply re-dirties
the tree (the stash entry is kept); `git diff --quiet HEAD` exits
non-zero exactly when the tree is dirty; `git reset --hard HEAD`
cleans the tree; `git stash` shelves the dirt into a new stash entry;
`git pull --rebase` fetches (updating the tracking ref) and on success
moves the branch to the fetched tip, on failure leaves a rebase in
progress; `git fetch --all` updates the tracking ref; `git reset
--hard origin/<branch>` moves the branch to the tracking ref;
`git rebase --strategy-option=theirs` on success completes the rebase
onto the tracking ref; `git rebase --abort` restores the pre-rebase
tree. -/
def runGit : GitCmd → GitEnv → GitState → Nat × GitState
  | .stashList, _, st => (0, st)
  | .stashApply, env, st =>
      if env.stashApplyOk then (0, { st with dirty := true }) else (1, st)
  | .diffQuietHead, _, st => (if st.dirty then 1 else 0, st)
  | .resetHardHead, env, st => (env.resetHeadCode, { st with dirty := false })
  | .stashPush, env, st =>
      (env.stashCode, { st with dirty := false, stashes := st.stashes + 1 })
  | .pullRebase, env, st =>
      if env.pullOk then
        (0, { st with upstreamTip := st.remoteTip, headCommit := st.remoteTip })
      else
        (1, { st with upstreamTip := st.remoteTip, rebaseInProgress := true })
  | .fetchAll, env, st => (env.fetchCode, { st with upstreamTip := st.remoteTip })
  | .resetHardUpstream, env, st =>
      (env.resetUpstreamCode, { st with headCommit := st.upstreamTip, dirty := false })
  | .rebaseTheirs, env, st =>
      if env.rebaseTheirsOk then
        (0, { st with headCommit := st.upstreamTip, rebaseInProgress := false })
      else (1, st)
  | .rebaseAbort, env, st => (env.abortCode, { st with rebaseInProgress := false })

/-- The observable result of one call to `git_pull_with_resolve`: the
returned issue list (the function's only return value, line 103), the
verbose narration lines printed along the way, the ordered trace of
git commands issued, and the final repository state. -/
structure SyncResult where
  issues : List String
  narration : List String
  trace : List GitCmd
  state : GitState
deriving Repr, DecidableEq

/-- Issue string appended at line 66. -/
def failedApplyMsg (directory : String) : String :=
  "Failed to apply stashed changes in " ++ directory

/-- Issue string appended at line 97. -/
def unresolvedMsg (directory : String) : String :=
  "Unable to resolve conflicts in " ++ directory ++ ". Manual intervention required."

/-- Narration printed at line 56. -/
def skipNarr (directory : String) : String :=
  "\n" ++ YELLOW ++ "Skipping " ++ directory ++ " (not a git repository)" ++ DEFAULT

/-- Narration printed at line 63. -/
def stashFoundNarr (directory : String) : String :=
  "\n" ++ YELLOW ++ "Stashed changes found in " ++ directory ++
    ". Attempting to apply..." ++ DEFAULT

/-- Narration printed at line 73. -/
def discardNarr : String :=
  "\n" ++ YELLOW ++ "Uncommitted changes found. Force option is set. Discarding changes..." ++
    DEFAULT

/-- Narration printed at line 77. -/
def stashingNarr : String :=
  "\n" ++ YELLOW ++ "Uncommitted changes found. Stashing changes..." ++ DEFAULT

/-- Narration printed at line 84. -/
def conflictsNarr (directory : String) : String :=
  "\n" ++ YELLOW ++ "Conflicts detected in " ++ directory ++
    ". Attempting to resolve..." ++ DEFAULT

/-- Narration printed at line 88. -/
def forceRebasingNarr : String := "Force rebasing..."

/-- Narration printed at line 93. -/
def favorIncomingNarr : String :=
  "Attempting to resolve conflicts by favoring incoming changes..."

/-- Narration printed at line 101. -/
def successNarr (directory : String) : String :=
  GREEN ++ "Update successful for " ++ directory ++ DEFAULT

/-- Issue one git command (`run_git_command`, lines 44-47): returns
its exit code and the accumulator with the command appended to the
trace and the repository state advanced. -/
def execCmd (c : GitCmd) (env : GitEnv) (a : SyncResult) : Nat × SyncResult :=
  ((runGit c env a.state).1,
   { a with trace := a.trace ++ [c], state := (runGit c env a.state).2 })

/-- Append an issue string (lines 66 and 97). -/
def addIssue (i : String) (a : SyncResult) : SyncResult :=
  { a with issues := a.issues ++ [i] }

/-- Print a narration line when verbose (the `if verbose: print(...)`
pattern). -/
def narrate (verbose : Bool) (m : String) (a : SyncResult) : SyncResult :=
  if verbose then { a with narration := a.narration ++ [m] } else a

/-- Lines 59-66: run `git stash list`; if its stdout is non-empty
(i.e. some stash exists), narrate, run `git stash apply`, and on a
non-zero exit code append the failed-apply issue. -/
def stashStep (directory : String) (verbose : Bool) (env : GitEnv)
    (a : SyncResult) : SyncResult :=
  let a1 := (execCmd .stashList env a).2
  if 0 < a1.state.stashes then
    let a2 := narrate verbose (stashFoundNarr directory) a1
    let code := (execCmd .stashApply env a2).1
    let a3 := (execCmd .stashApply env a2).2
    if code ≠ 0 then addIssue (failedApplyMsg directory) a3 else a3
  else a1

/-- Lines 68-78: run `git diff --quiet HEAD`; on a non-zero exit code,
either `git reset --hard HEAD` (force) or `git stash` (otherwise),
never recording an issue. -/
def divergenceStep (verbose force : Bool) (env : GitEnv)
    (a : SyncResult) : SyncResult :=
  let code := (execCmd .diffQuietHead env a).1
  let a1 := (execCmd .diffQuietHead env a).2
  if code ≠ 0 then
    if force then
      let a2 := narrate verbose discardNarr a1
      (execCmd .resetHardHead env a2).2
    else
      let a2 := narrate verbose stashingNarr a1
      (execCmd .stashPush env a2).2
  else a1

/-- Lines 80-98: run `git pull --rebase`; on failure, in force mode
run `git fetch --all` then reset hard to the upstream tracking ref of
the current branch; otherwise retry with
`git rebase --strategy-option=theirs`, and if that also fails append
the unresolved-conflicts issue and run `git rebase --abort`. -/
def pullStep (directory : String) (verbose force : Bool) (env : GitEnv)
    (a : SyncResult) : SyncResult :=
  let code := (execCmd .pullRebase env a).1
  let a1 := (execCmd .pullRebase env a).2
  if code ≠ 0 then
    let a2 := narrate verbose (conflictsNarr directory) a1
    if force then
      let a3 := narrate verbose forceRebasingNarr a2
      let a4 := (execCmd .fetchAll env a3).2
      (execCmd .resetHardUpstream env a4).2
    else
      let a3 := narrate verbose favorIncomingNarr a2
      let code2 := (execCmd .rebaseTheirs env a3).1
      let a4 := (execCmd .rebaseTheirs env a3).2
      if code2 ≠ 0 then
        let a5 := addIssue (unresolvedMsg directory) a4
        (execCmd .rebaseAbort env a5).2
      else a4
  else a1

/-- `git_pull_with_resolve(directory, verbose, force)`, lines 49-103,
translated line by line.  Line 54's check for the `.git` entry is the
`hasGit` field; lines 100-101 print the success narration when verbose
and no issue was collected; line 103 returns the issue list (here,
together with the narration, trace and final state). -/
def git_pull_with_resolve (directory : String) (verbose force : Bool)
    (env : GitEnv) (st : GitState) : SyncResult :=
  let a0 : SyncResult := { issues := [], narration := [], trace := [], state := st }
  if st.hasGit = false then
    narrate verbose (skipNarr directory) a0
  else
    let a1 := stashStep directory verbose env a0
    let a2 := divergenceStep verbose force env a1
    let a3 := pullStep directory verbose force env a2
    if verbose ∧ a3.issues = [] then
      { a3 with narration := a3.narration ++ [successNarr directory] }
    else a3

/-- Lines 159-164 of `main`: the success banner printed at line 159,
then, when the accumulated issue list is non-empty, the summary header
of line 162 followed by one `- <issue>` line per issue (lines
163-164).  Modelled as the list of strings printed after the per-
project loop. -/
def successBanner : String :=
  "\n" ++ GREEN ++ "All projects updated successfully!" ++ DEFAULT

/-- The summary header printed at line 162. -/
def summaryHeader : String :=
  "\n" ++ YELLOW ++ "Summary of issues:" ++ DEFAULT

/-- The lines printed by `main` after all projects are processed
(lines 159-164). -/
def mainOutput (allIssues : List String) : List String :=
  [successBanner] ++
    (if allIssues.isEmpty then []
     else [summaryHeader] ++ allIssues.map (fun i => "- " ++ i))

/-! ## Helper lemmas -/

theorem narrate_issues (v : Bool) (m : String) (a : SyncResult) :
    (narrate v m a).issues = a.issues := by
  unfold narrate; split <;> rfl

theorem narrate_trace (v : Bool) (m : String) (a : SyncResult) :
    (narrate v m a).trace = a.trace := by
  unfold narrate; split <;> rfl

theorem narrate_state (v : Bool) (m : String) (a : SyncResult) :
    (narrate v m a).state = a.state := by
  unfold narrate; split <;> rfl

theorem execCmd_snd_issues (c : GitCmd) (env : GitEnv) (a : SyncResult) :
    (execCmd c env a).2.issues = a.issues := rfl

theorem execCmd_snd_narration (c : GitCmd) (env : GitEnv) (a : SyncResult) :
    (execCmd c env a).2.narration = a.narration := rfl

theorem execCmd_snd_trace (c : GitCmd) (env : GitEnv) (a : SyncResult) :
    (execCmd c env a).2.trace = a.trace ++ [c] := rfl

theorem execCmd_snd_state (c : GitCmd) (env : GitEnv) (a : SyncResult) :
    (execCmd c env a).2.state = (runGit c env a.state).2 := rfl

theorem execCmd_fst (c : GitCmd) (env : GitEnv) (a : SyncResult) :
    (execCmd c env a).1 = (runGit c env a.state).1 := rfl

theorem addIssue_issues (i : String) (a : SyncResult) :
    (addIssue i a).issues = a.issues ++ [i] := rfl

theorem addIssue_trace (i : String) (a : SyncResult) :
    (addIssue i a).trace = a.trace := rfl

theorem addIssue_state (i : String) (a : SyncResult) :
    (addIssue i a).state = a.state := rfl

theorem stashStep_issues (d : String) (v : Bool) (env : GitEnv) (a : SyncResult) :
    (stashStep d v env a).issues =
      a.issues ++ (if 0 < a.state.stashes ∧ env.stashApplyOk = false
                   then [failedApplyMsg d] else []) := by
  by_cases hs : 0 < a.state.stashes <;> by_cases ha : env.stashApplyOk <;>
    simp [stashStep, execCmd, runGit, narrate_issues, addIssue_issues, hs, ha]

theorem stashStep_trace (d : String) (v : Bool) (env : GitEnv) (a : SyncResult) :
    (stashStep d v env a).trace =
      a.trace ++ (if 0 < a.state.stashes
                  then [GitCmd.stashList, GitCmd.stashApply]
                  else [GitCmd.stashList]) := by
  by_cases hs : 0 < a.state.stashes <;> by_cases ha : env.stashApplyOk <;>
    simp [stashStep, execCmd, runGit, narrate_trace, narrate_state,
      addIssue_trace, hs, ha]

theorem stashStep_state (d : String) (v : Bool) (env : GitEnv) (a : SyncResult) :
    (stashStep d v env a).state =
      (if 0 < a.state.stashes ∧ env.stashApplyOk = true
       then { a.state with dirty := true } else a.state) := by
  by_cases hs : 0 < a.state.stashes <;> by_cases ha : env.stashApplyOk <;>
    simp [stashStep, execCmd, runGit, narrate_state, addIssue_state, hs, ha]

theorem divergenceStep_issues (v f : Bool) (env : GitEnv) (a : SyncResult) :
    (divergenceStep v f env a).issues = a.issues := by
  by_cases hd : a.state.dirty <;> by_cases hf : f <;>
    simp [divergenceStep, execCmd, runGit, narrate_issues, narrate_state, hd, hf]

theorem divergenceStep_trace (v f : Bool) (env : GitEnv) (a : SyncResult) :
    (divergenceStep v f env a).trace =
      a.trace ++ (if a.state.dirty = true
                  then (if f then [GitCmd.diffQuietHead, GitCmd.resetHardHead]
                        else [GitCmd.diffQuietHead, GitCmd.stashPush])
                  else [GitCmd.diffQuietHead]) := by
  by_cases hd : a.state.dirty <;> by_cases hf : f <;>
    simp [divergenceStep, execCmd, runGit, narrate_trace, narrate_state, hd, hf]

theorem divergenceStep_state (v f : Bool) (env : GitEnv) (a : SyncResult) :
    (divergenceStep v f env a).state =
      (if a.state.dirty = true then
        (if f then { a.state with dirty := false }
         else { a.state with dirty := false, stashes := a.state.stashes + 1 })
       else a.state) := by
  by_cases hd : a.state.dirty <;> by_cases hf : f <;>
    simp [divergenceStep, execCmd, runGit, narrate_state, hd, hf]

theorem pullStep_issues (d : String) (v f : Bool) (env : GitEnv) (a : SyncResult) :
    (pullStep d v f env a).issues =
      a.issues ++ (if env.pullOk = false ∧ f = false ∧ env.rebaseTheirsOk = false
                   then [unresolvedMsg d] else []) := by
  by_cases hp : env.pullOk <;> by_cases hf : f <;> by_cases hr : env.rebaseTheirsOk <;>
    simp [pullStep, execCmd, runGit, narrate_issues, narrate_state,
      addIssue_issues, hp, hf, hr]

theorem pullStep_trace (d : String) (v f : Bool) (env : GitEnv) (a : SyncResult) :
    (pullStep d v f env a).trace =
      a.trace ++ (if env.pullOk = true then [GitCmd.pullRebase]
                  else if f then [GitCmd.pullRebase, GitCmd.fetchAll, GitCmd.resetHardUpstream]
                  else if env.rebaseTheirsOk then [GitCmd.pullRebase, GitCmd.rebaseTheirs]
                  else [GitCmd.pullRebase, GitCmd.rebaseTheirs, GitCmd.rebaseAbort]) := by
  by_cases hp : env.pullOk <;> by_cases hf : f <;> by_cases hr : env.rebaseTheirsOk <;>
    simp [pullStep, execCmd, runGit, narrate_trace, narrate_state,
      addIssue_trace, hp, hf, hr]

theorem pullStep_state (d : String) (v f : Bool) (env : GitEnv) (a : SyncResult) :
    (pullStep d v f env a).state =
      (if env.pullOk = true then
        { a.state with upstreamTip := a.state.remoteTip, headCommit := a.state.remoteTip }
       else if f then
        { a.state with upstreamTip := a.state.remoteTip, headCommit := a.state.remoteTip,
                       rebaseInProgress := true, dirty := false }
       else if env.rebaseTheirsOk then
        { a.state with upstreamTip := a.state.remoteTip, headCommit := a.state.remoteTip,
                       rebaseInProgress := false }
       else
        { a.state with upstreamTip := a.state.remoteTip, rebaseInProgress := false }) := by
  by_cases hp : env.pullOk <;> by_cases hf : f <;> by_cases hr : env.rebaseTheirsOk <;>
    simp [pullStep, execCmd, runGit, narrate_state, addIssue_state, hp, hf, hr]

theorem failedApplyMsg_ne_unresolvedMsg (d : String) :
    failedApplyMsg d ≠ unresolvedMsg d := by
  intro h
  have h2 := congrArg String.length h
  rw [failedApplyMsg, unresolvedMsg, String.length_append, String.length_append,
    String.length_append] at h2
  have e1 : ("Failed to apply stashed changes in ").length = 35 := rfl
  have e2 : ("Unable to resolve conflicts in ").length = 31 := rfl
  have e3 : (". Manual intervention required.").length = 31 := rfl
  rw [e1, e2, e3] at h2
  omega

theorem sync_issues (d : String) (v f : Bool) (env : GitEnv) (st : GitState)
    (hg : st.hasGit = true) :
    (git_pull_with_resolve d v f env st).issues =
      (pullStep d v f env (divergenceStep v f env
        (stashStep d v env ⟨[], [], [], st⟩))).issues := by
  rw [git_pull_with_resolve, if_neg (by simp [hg])]
  dsimp only
  split <;> rfl

theorem sync_trace (d : String) (v f : Bool) (env : GitEnv) (st : GitState)
    (hg : st.hasGit = true) :
    (git_pull_with_resolve d v f env st).trace =
      (pullStep d v f env (divergenceStep v f env
        (stashStep d v env ⟨[], [], [], st⟩))).trace := by
  rw [git_pull_with_resolve, if_neg (by simp [hg])]
  dsimp only
  split <;> rfl

theorem sync_state (d : String) (v f : Bool) (env : GitEnv) (st : GitState)
    (hg : st.hasGit = true) :
    (git_pull_with_resolve d v f env st).state =
      (pullStep d v f env (divergenceStep v f env
        (stashStep d v env ⟨[], [], [], st⟩))).state := by
  rw [git_pull_with_resolve, if_neg (by simp [hg])]
  dsimp only
  split <;> rfl

theorem divergenceStep_trace_head (v f : Bool) (env : GitEnv) (a : SyncResult) :
    ∃ t, (divergenceStep v f env a).trace = a.trace ++ GitCmd.diffQuietHead :: t := by
  rw [divergenceStep_trace]
  split
  · split
    · exact ⟨[GitCmd.resetHardHead], rfl⟩
    · exact ⟨[GitCmd.stashPush], rfl⟩
  · exact ⟨[], rfl⟩

theorem pullStep_trace_head (d : String) (v f : Bool) (env : GitEnv) (a : SyncResult) :
    ∃ t, (pullStep d v f env a).trace = a.trace ++ GitCmd.pullRebase :: t := by
  rw [pullStep_trace]
  split
  · exact ⟨[], rfl⟩
  · split
    · exact ⟨[GitCmd.fetchAll, GitCmd.resetHardUpstream], rfl⟩
    · split
      · exact ⟨[GitCmd.rebaseTheirs], rfl⟩
      · exact ⟨[GitCmd.rebaseTheirs, GitCmd.rebaseAbort], rfl⟩

/-- Claim C1: when the pull-with-rebase fails under a policy with
`force = false`, the syncer retries the rebase with the favor-incoming
strategy; when that retry also fails, the returned issue list contains
exactly one string equal to
`"Unable to resolve conflicts in <path>. Manual intervention required."`
and the rebase is aborted, so no rebase remains in progress. -/
theorem sync_conservative_conflict_aborts (d : String) (v : Bool) (env : GitEnv)
    (st : GitState) (hg : st.hasGit = true) (hp : env.pullOk = false)
    (hr : env.rebaseTheirsOk = false) :
    (git_pull_with_resolve d v false env st).issues.count (unresolvedMsg d) = 1 ∧
    GitCmd.rebaseTheirs ∈ (git_pull_with_resolve d v false env st).trace ∧
    GitCmd.rebaseAbort ∈ (git_pull_with_resolve d v false env st).trace ∧
    (git_pull_with_resolve d v false env st).state.rebaseInProgress = false := by
  refine ⟨?_, ?_, ?_, ?_⟩
  · rw [sync_issues d v false env st hg, pullStep_issues, divergenceStep_issues,
      stashStep_issues]
    simp [hp, hr, List.count_append, apply_ite (List.count (unresolvedMsg d)),
      List.count_cons, Ne.symm (failedApplyMsg_ne_unresolvedMsg d)]
  · rw [sync_trace d v false env st hg, pullStep_trace]
    simp [hp, hr]
  · rw [sync_trace d v false env st hg, pullStep_trace]
    simp [hp, hr]
  · rw [sync_state d v false env st hg, pullStep_state]
    simp [hp, hr]

theorem sync_conservative_conflict_aborts_witness :
    (git_pull_with_resolve "p" false false
        ⟨true, false, false, 0, 0, 0, 0, 0⟩
        ⟨true, 0, false, false, 0, 0, 1⟩).issues.count (unresolvedMsg "p") = 1 ∧
    GitCmd.rebaseTheirs ∈ (git_pull_with_resolve "p" false false
        ⟨true, false, false, 0, 0, 0, 0, 0⟩ ⟨true, 0, false, false, 0, 0, 1⟩).trace ∧
    GitCmd.rebaseAbort ∈ (git_pull_with_resolve "p" false false
        ⟨true, false, false, 0, 0, 0, 0, 0⟩ ⟨true, 0, false, false, 0, 0, 1⟩).trace ∧
    (git_pull_with_resolve "p" false false
        ⟨true, false, false, 0, 0, 0, 0, 0⟩
        ⟨true, 0, false, false, 0, 0, 1⟩).state.rebaseInProgress = false :=
  sync_conservative_conflict_aborts "p" false
    ⟨true, false, false, 0, 0, 0, 0, 0⟩ ⟨true, 0, false, false, 0, 0, 1⟩ rfl rfl rfl

/-- Claim C6: a target whose path lacks the `.git` control entry is
skipped: the syncer returns an empty issue list, runs no git command,
and leaves the repository state untouched. -/
theorem sync_skips_non_repo (d : String) (v f : Bool) (env : GitEnv) (st : GitState)
    (hg : st.hasGit = false) :
    (git_pull_with_resolve d v f env st).issues = [] ∧
    (git_pull_with_resolve d v f env st).trace = [] ∧
    (git_pull_with_resolve d v f env st).state = st := by
  have he : git_pull_with_resolve d v f env st = narrate v (skipNarr d) ⟨[], [], [], st⟩ := by
    rw [git_pull_with_resolve]
    dsimp only
    rw [if_pos hg]
  exact ⟨by rw [he, narrate_issues], by rw [he, narrate_trace], by rw [he, narrate_state]⟩

theorem sync_skips_non_repo_witness :
    (git_pull_with_resolve "p" true true
        ⟨true, true, true, 0, 0, 0, 0, 0⟩ ⟨false, 3, true, true, 4, 5, 6⟩).issues = [] ∧
    (git_pull_with_resolve "p" true true
        ⟨true, true, true, 0, 0, 0, 0, 0⟩ ⟨false, 3, true, true, 4, 5, 6⟩).trace = [] ∧
    (git_pull_with_resolve "p" true true
        ⟨true, true, true, 0, 0, 0, 0, 0⟩ ⟨false, 3, true, true, 4, 5, 6⟩).state =
      ⟨false, 3, true, true, 4, 5, 6⟩ :=
  sync_skips_non_repo "p" true true
    ⟨true, true, true, 0, 0, 0, 0, 0⟩ ⟨false, 3, true, true, 4, 5, 6⟩ rfl

/-- Claim C2, counterexample: a divergent target (dirty tree) synced
under `force = true` that also carries a stash entry whose
reapplication fails does get a `"Failed to apply stashed changes in
<path>"` issue — the stash-recovery step of lines 59-66 runs before
the force logic and is unaffected by it, so the claim's "never
produces a Failed-to-apply issue for this target" is false. -/
theorem sync_force_divergent_failed_apply_cex :
    (⟨true, 1, true, false, 0, 0, 1⟩ : GitState).dirty = true ∧
    (git_pull_with_resolve "p" false true
        ⟨false, true, true, 0, 0, 0, 0, 0⟩
        ⟨true, 1, true, false, 0, 0, 1⟩).issues = [failedApplyMsg "p"] := by
  decide

/-- Claim C2, amended: for a divergent target with no pre-existing
stash entries, synced under `force = true`, the syncer hard-resets to
the last synced commit before attempting any pull (the reset appears
in the command trace immediately before the pull) and the returned
issue list is empty — in particular no "Failed to apply" issue.  (A
pre-existing stash whose reapplication fails still yields that issue
even under force.) -/
theorem sync_force_discards_divergence (d : String) (v : Bool) (env : GitEnv)
    (st : GitState) (hg : st.hasGit = true) (hd : st.dirty = true)
    (hs : st.stashes = 0) :
    (git_pull_with_resolve d v true env st).issues = [] ∧
    (∃ rest, (git_pull_with_resolve d v true env st).trace =
      [GitCmd.stashList, GitCmd.diffQuietHead, GitCmd.resetHardHead,
        GitCmd.pullRebase] ++ rest) := by
  constructor
  · rw [sync_issues d v true env st hg, pullStep_issues, divergenceStep_issues,
      stashStep_issues]
    simp [hs]
  · obtain ⟨t, ht⟩ := pullStep_trace_head d v true env
      (divergenceStep v true env (stashStep d v env ⟨[], [], [], st⟩))
    refine ⟨t, ?_⟩
    rw [sync_trace d v true env st hg, ht, divergenceStep_trace, stashStep_trace,
      stashStep_state]
    simp [hs, hd]

theorem sync_force_discards_divergence_witness :
    (git_pull_with_resolve "p" false true
        ⟨true, true, true, 0, 0, 0, 0, 0⟩ ⟨true, 0, true, false, 0, 0, 1⟩).issues = [] ∧
    (∃ rest, (git_pull_with_resolve "p" false true
        ⟨true, true, true, 0, 0, 0, 0, 0⟩ ⟨true, 0, true, false, 0, 0, 1⟩).trace =
      [GitCmd.stashList, GitCmd.diffQuietHead, GitCmd.resetHardHead,
        GitCmd.pullRebase] ++ rest) :=
  sync_force_discards_divergence "p" false
    ⟨true, true, true, 0, 0, 0, 0, 0⟩ ⟨true, 0, true, false, 0, 0, 1⟩ rfl rfl rfl

/-- Claim C3: a divergent target synced under `force = false` has its
local modifications shelved rather than discarded: the stash count
grows by exactly one (and is never dropped later in the call), and the
subsequent pull runs on a clean tree — the stash command appears in
the trace between the divergence check and the pull, and the final
tree is clean when the pull succeeds. -/
theorem sync_conservative_shelves_divergence (d : String) (v : Bool) (env : GitEnv)
    (st : GitState) (hg : st.hasGit = true) (hd : st.dirty = true)
    (hp : env.pullOk = true) :
    (git_pull_with_resolve d v false env st).state.stashes = st.stashes + 1 ∧
    (git_pull_with_resolve d v false env st).state.dirty = false ∧
    (∃ pre, (git_pull_with_resolve d v false env st).trace =
      pre ++ [GitCmd.diffQuietHead, GitCmd.stashPush, GitCmd.pullRebase]) := by
  refine ⟨?_, ?_, ?_⟩
  · rw [sync_state d v false env st hg, pullStep_state, divergenceStep_state,
      stashStep_state]
    by_cases hs : 0 < st.stashes <;> by_cases ha : env.stashApplyOk <;>
      simp [hp, hd, hs, ha]
  · rw [sync_state d v false env st hg, pullStep_state, divergenceStep_state,
      stashStep_state]
    by_cases hs : 0 < st.stashes <;> by_cases ha : env.stashApplyOk <;>
      simp [hp, hd, hs, ha]
  · refine ⟨if 0 < st.stashes then [GitCmd.stashList, GitCmd.stashApply]
      else [GitCmd.stashList], ?_⟩
    rw [sync_trace d v false env st hg, pullStep_trace, divergenceStep_trace,
      stashStep_trace, stashStep_state]
    by_cases hs : 0 < st.stashes <;> by_cases ha : env.stashApplyOk <;>
      simp [hp, hd, hs, ha]

theorem sync_conservative_shelves_divergence_witness :
    (git_pull_with_resolve "p" false false
        ⟨true, true, true, 0, 0, 0, 0, 0⟩
        ⟨true, 0, true, false, 0, 0, 1⟩).state.stashes = 0 + 1 ∧
    (git_pull_with_resolve "p" false false
        ⟨true, true, true, 0, 0, 0, 0, 0⟩
        ⟨true, 0, true, false, 0, 0, 1⟩).state.dirty = false ∧
    (∃ pre, (git_pull_with_resolve "p" false false
        ⟨true, true, true, 0, 0, 0, 0, 0⟩ ⟨true, 0, true, false, 0, 0, 1⟩).trace =
      pre ++ [GitCmd.diffQuietHead, GitCmd.stashPush, GitCmd.pullRebase]) :=
  sync_conservative_shelves_divergence "p" false
    ⟨true, true, true, 0, 0, 0, 0, 0⟩ ⟨true, 0, true, false, 0, 0, 1⟩ rfl rfl rfl

/-- Claim C4: a target that has stashed changes when sync starts gets
its most recent stash reapplied; when the reapplication fails, exactly
one issue `"Failed to apply stashed changes in <path>"` is appended,
and the procedure still goes on to the divergence check and the pull
(the trace continues with `git diff --quiet HEAD` and contains
`git pull --rebase`). -/
theorem sync_stash_reapply_failure_continues (d : String) (v f : Bool)
    (env : GitEnv) (st : GitState) (hg : st.hasGit = true)
    (hs : 0 < st.stashes) (ha : env.stashApplyOk = false) :
    (git_pull_with_resolve d v f env st).issues.count (failedApplyMsg d) = 1 ∧
    (∃ rest, (git_pull_with_resolve d v f env st).trace =
      [GitCmd.stashList, GitCmd.stashApply, GitCmd.diffQuietHead] ++ rest ∧
      GitCmd.pullRebase ∈ rest) := by
  constructor
  · rw [sync_issues d v f env st hg, pullStep_issues, divergenceStep_issues,
      stashStep_issues]
    simp [hs, ha, List.count_append, apply_ite (List.count (failedApplyMsg d)),
      List.count_cons, failedApplyMsg_ne_unresolvedMsg d]
  · obtain ⟨t1, h1⟩ := divergenceStep_trace_head v f env
      (stashStep d v env ⟨[], [], [], st⟩)
    obtain ⟨t2, h2⟩ := pullStep_trace_head d v f env
      (divergenceStep v f env (stashStep d v env ⟨[], [], [], st⟩))
    refine ⟨t1 ++ GitCmd.pullRebase :: t2, ?_, by simp⟩
    rw [sync_trace d v f env st hg, h2, h1, stashStep_trace]
    simp [hs]

theorem sync_stash_reapply_failure_continues_witness :
    (git_pull_with_resolve "p" false false
        ⟨false, true, true, 0, 0, 0, 0, 0⟩
        ⟨true, 2, false, false, 0, 0, 1⟩).issues.count (failedApplyMsg "p") = 1 ∧
    (∃ rest, (git_pull_with_resolve "p" false false
        ⟨false, true, true, 0, 0, 0, 0, 0⟩ ⟨true, 2, false, false, 0, 0, 1⟩).trace =
      [GitCmd.stashList, GitCmd.stashApply, GitCmd.diffQuietHead] ++ rest ∧
      GitCmd.pullRebase ∈ rest) :=
  sync_stash_reapply_failure_continues "p" false false
    ⟨false, true, true, 0, 0, 0, 0, 0⟩ ⟨true, 2, false, false, 0, 0, 1⟩
    rfl (by decide) rfl

/-- Claim C5, counterexample: a target whose pull fails under
`force = true` but which carries a stash entry whose reapplication
fails does get an issue recorded (the step-2 "Failed to apply" issue),
so "records no issue" does not hold for every such target. -/
theorem sync_force_conflict_issue_cex :
    (⟨false, false, true, 0, 0, 0, 0, 0⟩ : GitEnv).pullOk = false ∧
    (git_pull_with_resolve "p" false true
        ⟨false, false, true, 0, 0, 0, 0, 0⟩
        ⟨true, 1, false, false, 0, 0, 1⟩).issues = [failedApplyMsg "p"] := by
  decide

/-- Claim C5, amended: when the pull fails under `force = true`, the
syncer runs `git fetch --all` and then hard-resets the current branch
to its upstream tracking ref, recording no issue in this recovery
branch — so a target with no pre-existing stash entries ends with an
empty issue list — and afterwards the local branch equals its upstream
tracking branch's tip.  (A pre-existing stash whose reapplication
fails still contributes its step-2 issue.) -/
theorem sync_force_resets_to_upstream (d : String) (v : Bool) (env : GitEnv)
    (st : GitState) (hg : st.hasGit = true) (hp : env.pullOk = false)
    (hs : st.stashes = 0) :
    (git_pull_with_resolve d v true env st).issues = [] ∧
    (git_pull_with_resolve d v true env st).state.headCommit =
      (git_pull_with_resolve d v true env st).state.upstreamTip ∧
    (∃ pre, (git_pull_with_resolve d v true env st).trace =
      pre ++ [GitCmd.pullRebase, GitCmd.fetchAll, GitCmd.resetHardUpstream]) := by
  refine ⟨?_, ?_, ?_⟩
  · rw [sync_issues d v true env st hg, pullStep_issues, divergenceStep_issues,
      stashStep_issues]
    simp [hs]
  · rw [sync_state d v true env st hg, pullStep_state]
    simp [hp]
  · refine ⟨(if 0 < st.stashes then [GitCmd.stashList, GitCmd.stashApply]
      else [GitCmd.stashList]) ++
      (if st.dirty = true then [GitCmd.diffQuietHead, GitCmd.resetHardHead]
       else [GitCmd.diffQuietHead]), ?_⟩
    rw [sync_trace d v true env st hg, pullStep_trace, divergenceStep_trace,
      stashStep_trace, stashStep_state]
    by_cases h3 : st.dirty <;> simp [hp, hs, h3]

theorem sync_force_resets_to_upstream_witness :
    (git_pull_with_resolve "p" false true
        ⟨true, false, true, 0, 0, 0, 0, 0⟩ ⟨true, 0, false, false, 3, 4, 7⟩).issues = [] ∧
    (git_pull_with_resolve "p" false true
        ⟨true, false, true, 0, 0, 0, 0, 0⟩
        ⟨true, 0, false, false, 3, 4, 7⟩).state.headCommit =
      (git_pull_with_resolve "p" false true
        ⟨true, false, true, 0, 0, 0, 0, 0⟩
        ⟨true, 0, false, false, 3, 4, 7⟩).state.upstreamTip ∧
    (∃ pre, (git_pull_with_resolve "p" false true
        ⟨true, false, true, 0, 0, 0, 0, 0⟩ ⟨true, 0, false, false, 3, 4, 7⟩).trace =
      pre ++ [GitCmd.pullRebase, GitCmd.fetchAll, GitCmd.resetHardUpstream]) :=
  sync_force_resets_to_upstream "p" false
    ⟨true, false, true, 0, 0, 0, 0, 0⟩ ⟨true, 0, false, false, 3, 4, 7⟩ rfl rfl rfl

/-- Claim C7: the syncer is a total function — every failure mode of
the underlying commands is absorbed locally — and every issue string
it can ever return is one of the two known diagnostics, so the caller
always receives a normal return carrying only those issue strings. -/
theorem sync_total_issue_taxonomy (d : String) (v f : Bool) (env : GitEnv)
    (st : GitState) :
    ∀ i ∈ (git_pull_with_resolve d v f env st).issues,
      i = failedApplyMsg d ∨ i = unresolvedMsg d := by
  intro i hi
  by_cases hg : st.hasGit = true
  · rw [sync_issues d v f env st hg, pullStep_issues, divergenceStep_issues,
      stashStep_issues] at hi
    simp only [List.nil_append, List.mem_append] at hi
    rcases hi with h | h
    · split at h
      · simp only [List.mem_singleton] at h
        exact Or.inl h
      · simp at h
    · split at h
      · simp only [List.mem_singleton] at h
        exact Or.inr h
      · simp at h
  · have hg2 : st.hasGit = false := by
      cases h : st.hasGit
      · rfl
      · exact absurd h hg
    have he : git_pull_with_resolve d v f env st =
        narrate v (skipNarr d) ⟨[], [], [], st⟩ := by
      rw [git_pull_with_resolve]
      dsimp only
      rw [if_pos hg2]
    rw [he, narrate_issues] at hi
    simp at hi

theorem sync_total_issue_taxonomy_witness :
    failedApplyMsg "p" = failedApplyMsg "p" ∨ failedApplyMsg "p" = unresolvedMsg "p" :=
  sync_total_issue_taxonomy "p" false false
    ⟨false, true, true, 0, 0, 0, 0, 0⟩ ⟨true, 1, false, false, 0, 0, 1⟩
    (failedApplyMsg "p") (by decide)

/-- Claim C8: syncing an already-up-to-date, non-divergent target (no
stashes, clean tree, successful pull, local branch already at the
fetched tip) yields an empty issue list and leaves the state exactly
unchanged, and therefore a second sync does the same — the procedure
is idempotent on clean targets. -/
theorem sync_idempotent_up_to_date (d : String) (v f : Bool) (env : GitEnv)
    (st : GitState) (hg : st.hasGit = true) (hs : st.stashes = 0)
    (hd : st.dirty = false) (hp : env.pullOk = true)
    (hu : st.headCommit = st.remoteTip) (ht : st.upstreamTip = st.remoteTip) :
    (git_pull_with_resolve d v f env st).issues = [] ∧
    (git_pull_with_resolve d v f env st).state = st ∧
    (git_pull_with_resolve d v f env
      (git_pull_with_resolve d v f env st).state).issues = [] ∧
    (git_pull_with_resolve d v f env
      (git_pull_with_resolve d v f env st).state).state = st := by
  have h1 : (git_pull_with_resolve d v f env st).issues = [] := by
    rw [sync_issues d v f env st hg, pullStep_issues, divergenceStep_issues,
      stashStep_issues]
    simp [hs, hp]
  have h2 : (git_pull_with_resolve d v f env st).state = st := by
    rw [sync_state d v f env st hg, pullStep_state, divergenceStep_state,
      stashStep_state]
    simp only [hs, hd, hp]
    cases st
    simp_all
  exact ⟨h1, h2, by rw [h2]; exact h1, by rw [h2]; exact h2⟩

theorem sync_idempotent_up_to_date_witness :
    (git_pull_with_resolve "p" false false
        ⟨true, true, true, 0, 0, 0, 0, 0⟩ ⟨true, 0, false, false, 5, 5, 5⟩).issues = [] ∧
    (git_pull_with_resolve "p" false false
        ⟨true, true, true, 0, 0, 0, 0, 0⟩ ⟨true, 0, false, false, 5, 5, 5⟩).state =
      ⟨true, 0, false, false, 5, 5, 5⟩ ∧
    (git_pull_with_resolve "p" false false ⟨true, true, true, 0, 0, 0, 0, 0⟩
      (git_pull_with_resolve "p" false false
        ⟨true, true, true, 0, 0, 0, 0, 0⟩
        ⟨true, 0, false, false, 5, 5, 5⟩).state).issues = [] ∧
    (git_pull_with_resolve "p" false false ⟨true, true, true, 0, 0, 0, 0, 0⟩
      (git_pull_with_resolve "p" false false
        ⟨true, true, true, 0, 0, 0, 0, 0⟩
        ⟨true, 0, false, false, 5, 5, 5⟩).state).state =
      ⟨true, 0, false, false, 5, 5, 5⟩ :=
  sync_idempotent_up_to_date "p" false false
    ⟨true, true, true, 0, 0, 0, 0, 0⟩ ⟨true, 0, false, false, 5, 5, 5⟩
    rfl rfl rfl rfl rfl rfl

/-- Claim C9: after the per-project loop, `main` prints the success
banner unconditionally (it is the first line printed), and prints the
itemized issue summary — the summary header followed by one
`- <issue>` line per accumulated issue — if and only if the
accumulated issue list is non-empty. -/
theorem main_banner_and_summary (allIssues : List String) :
    (mainOutput allIssues).head? = some successBanner ∧
    (summaryHeader ∈ mainOutput allIssues ↔ allIssues ≠ []) ∧
    (∀ i ∈ allIssues, ("- " ++ i) ∈ mainOutput allIssues) := by
  refine ⟨rfl, ⟨?_, ?_⟩, ?_⟩
  · intro hmem hnil
    subst hnil
    simp [mainOutput] at hmem
    exact absurd hmem (by decide)
  · intro hne
    have hni : ¬ allIssues.isEmpty = true := by
      cases allIssues
      · exact absurd rfl hne
      · simp
    rw [mainOutput, if_neg hni]
    simp
  · intro i hi
    have hni : ¬ allIssues.isEmpty = true := by
      cases allIssues
      · cases hi
      · simp
    rw [mainOutput, if_neg hni]
    simp only [List.mem_append, List.mem_map, List.mem_singleton]
    exact Or.inr (Or.inr ⟨i, hi, rfl⟩)

theorem main_banner_and_summary_witness :
    (mainOutput [unresolvedMsg "p"]).head? = some successBanner ∧
    (summaryHeader ∈ mainOutput [unresolvedMsg "p"]) ∧
    ("- " ++ unresolvedMsg "p") ∈ mainOutput [unresolvedMsg "p"] :=
  ⟨(main_banner_and_summary [unresolvedMsg "p"]).1,
   (main_banner_and_summary [unresolvedMsg "p"]).2.1.mpr (by decide),
   (main_banner_and_summary [unresolvedMsg "p"]).2.2 (unresolvedMsg "p") (by decide)⟩

theorem stashStep_env_congr (d : String) (v : Bool) (env₁ env₂ : GitEnv)
    (a : SyncResult) (h : env₁.stashApplyOk = env₂.stashApplyOk) :
    stashStep d v env₁ a = stashStep d v env₂ a := by
  simp [stashStep, execCmd, runGit, h]

theorem divergenceStep_env_congr (v f : Bool) (env₁ env₂ : GitEnv)
    (a : SyncResult) :
    divergenceStep v f env₁ a = divergenceStep v f env₂ a := by
  simp [divergenceStep, execCmd, runGit]

theorem pullStep_env_congr (d : String) (v f : Bool) (env₁ env₂ : GitEnv)
    (a : SyncResult) (h2 : env₁.pullOk = env₂.pullOk)
    (h3 : env₁.rebaseTheirsOk = env₂.rebaseTheirsOk) :
    pullStep d v f env₁ a = pullStep d v f env₂ a := by
  simp [pullStep, execCmd, runGit, h2, h3]

/-- Claim C10: the exit codes of the hard resets, the stash push, the
fetch and the rebase abort are never inspected: two environments that
agree on the three inspected outcomes (stash apply, pull, retry
rebase) but differ arbitrarily in every uninspected exit code produce
literally the same result — same issues, same narration, same command
trace, same final state. -/
theorem sync_ignores_uninspected_exit_codes (d : String) (v f : Bool)
    (env₁ env₂ : GitEnv) (st : GitState)
    (h1 : env₁.stashApplyOk = env₂.stashApplyOk)
    (h2 : env₁.pullOk = env₂.pullOk)
    (h3 : env₁.rebaseTheirsOk = env₂.rebaseTheirsOk) :
    git_pull_with_resolve d v f env₁ st = git_pull_with_resolve d v f env₂ st := by
  rw [git_pull_with_resolve, git_pull_with_resolve]
  dsimp only
  rw [stashStep_env_congr d v env₁ env₂ _ h1,
    divergenceStep_env_congr v f env₁ env₂ _,
    pullStep_env_congr d v f env₁ env₂ _ h2 h3]

theorem sync_ignores_uninspected_exit_codes_witness :
    git_pull_with_resolve "p" true false
      ⟨true, true, true, 0, 0, 0, 0, 0⟩ ⟨true, 1, true, false, 0, 0, 1⟩ =
    git_pull_with_resolve "p" true false
      ⟨true, true, true, 1, 2, 3, 4, 5⟩ ⟨true, 1, true, false, 0, 0, 1⟩ :=
  sync_ignores_uninspected_exit_codes "p" true false
    ⟨true, true, true, 0, 0, 0, 0, 0⟩ ⟨true, true, true, 1, 2, 3, 4, 5⟩
    ⟨true, 1, true, false, 0, 0, 1⟩ rfl rfl rfl
